import Mathlib

/-!
Shallow embedding of the chart-builder repository's two core modules:
`src/charts/data.ts` (schema extraction from DESCRIBE/sample query results)
and `src/charts/components.tsx` (the `specChart` chart-spec builder with the
table-preview fallback).  Engine values are modelled as a small JavaScript
value type; the two engine queries issued by `queryTable` are modelled as
`Except` results so the catch-all error path is explicit; the vgplot mark
and composition builders are modelled symbolically.
-/

namespace ChartBuilder

/-- A JavaScript runtime value as far as data.ts inspects one: the DESCRIBE
result fields are `unknown`-typed and the code branches on
`typeof value === "string"` and on `null`/`undefined`. -/
inductive JSVal where
  | str (s : String)
  | null
  | undefined
  | num (n : Int)
  | bool (b : Bool)
  deriving DecidableEq, Repr

/-- JavaScript `String(value)` coercion for the modelled values. -/
def jsToString : JSVal → String
  | .str s => s
  | .null => "null"
  | .undefined => "undefined"
  | .num n => toString n
  | .bool b => if b then "true" else "false"

/-- JavaScript truthiness for the modelled values (used by
`row.extra ? String(row.extra) : undefined`). -/
def jsTruthy : JSVal → Bool
  | .str s => !s.isEmpty
  | .null => false
  | .undefined => false
  | .num n => n != 0
  | .bool b => b

/-- `needle` occurs as a contiguous sublist of `hay`
(JavaScript `String.prototype.includes` on the underlying characters). -/
def charsHasSub : List Char → List Char → Bool
  | _, [] => true
  | [], _ :: _ => false
  | h :: t, n :: m => (List.isPrefixOf (n :: m) (h :: t)) || charsHasSub t (n :: m)

/-- JavaScript `hay.includes(needle)`. -/
def strHas (hay needle : String) : Bool :=
  charsHasSub hay.toList needle.toList

/-- JavaScript `s.toLowerCase()`, modelled as character-wise ASCII
lower-casing (all strings the code compares after lower-casing are
ASCII). -/
def strToLower (s : String) : String :=
  String.mk (s.toList.map Char.toLower)

/-- data.ts `isNullable`: a string case-insensitively equal to "null", or an
absent (`null`/`undefined`) marker, infers nullable. -/
def isNullable (value : JSVal) : Bool :=
  match value with
  | .str s => strToLower s == "null"
  | .null => true
  | .undefined => true
  | _ => false

/-- data.ts `isPrimaryKey`: a string marker whose lower-casing contains
"pri". -/
def isPrimaryKey (value : JSVal) : Bool :=
  match value with
  | .str s => strHas (strToLower s) "pri"
  | _ => false

/-- data.ts `isForeignKey`: a string marker whose lower-casing contains
"for". -/
def isForeignKey (value : JSVal) : Bool :=
  match value with
  | .str s => strHas (strToLower s) "for"
  | _ => false

/-- One row of the DESCRIBE query result (fields as documented in
`queryTable`: column_name, column_type, null, key, default, extra). -/
structure DescribeRow where
  column_name : String
  column_type : JSVal
  nullMarker : JSVal
  key : JSVal
  defaultVal : JSVal
  extra : JSVal
  deriving DecidableEq, Repr

/-- A log entry emitted through the diagnostic sink. -/
inductive LogEntry where
  | error (msg : String)
  | warn (msg : String)
  deriving DecidableEq, Repr

/-- logger.ts `logNever`: warns with the JSON rendering of the unexpected
value (here always a string). -/
def logNeverEntry (s : String) : LogEntry :=
  .warn ("Unexpected object: \"" ++ s ++ "\"")

/-- One column summary as built by `queryTable`.  `dataType` is
`String(row.column_type).toLowerCase()` — the `as DataType` annotation in the
source is a compile-time cast with no runtime matching, so the field holds
the lower-cased engine string verbatim. -/
structure ColumnSummary where
  dataType : String
  nullable : Bool
  sampleValues : Option (List JSVal)
  isPrimaryKey : Bool
  isForeignKey : Bool
  defaultValue : JSVal
  comment : Option String
  deriving DecidableEq, Repr

/-- Insertion-ordered string-keyed map (JavaScript `Map`): `set` updates an
existing key in place, otherwise appends. -/
def mapSet {α : Type} : List (String × α) → String → α → List (String × α)
  | [], k, v => [(k, v)]
  | (k', v') :: rest, k, v =>
    if k' = k then (k, v) :: rest else (k', v') :: mapSet rest k v

/-- JavaScript `Map.get`: the value at the key, if present. -/
def mapGet {α : Type} : List (String × α) → String → Option α
  | [], _ => none
  | (k', v') :: rest, k => if k' = k then some v' else mapGet rest k

/-- data.ts `TableSummary`. -/
structure TableSummary where
  name : String
  numRows : Option Nat := none
  columns : List (String × ColumnSummary)
  deriving DecidableEq, Repr

/-- The per-row body of the reduce in `queryTable`: builds one
`ColumnSummary` from a DESCRIBE row and the sample-query columns. -/
def summarizeColumn (sampleValues : List (String × List JSVal))
    (row : DescribeRow) : ColumnSummary :=
  { dataType := strToLower (jsToString row.column_type)
    sampleValues := mapGet sampleValues row.column_name
    nullable := isNullable row.nullMarker
    isPrimaryKey := isPrimaryKey row.key
    isForeignKey := isForeignKey row.key
    defaultValue := row.defaultVal
    comment := if jsTruthy row.extra then some (jsToString row.extra) else none }

/-- data.ts `queryTable`.  The two engine queries (DESCRIBE and the random
sample) are modelled as `Except` results; the DESCRIBE query is awaited
first, so an error there short-circuits before the sample query.  Any
failure is caught, logged as an error, and yields `none`. -/
def queryTable (describeRes : Except String (List DescribeRow))
    (sampleRes : Except String (List (String × List JSVal)))
    (tableName : String) : Option TableSummary × List LogEntry :=
  match describeRes with
  | .error _ => (none, [.error "Error querying table"])
  | .ok describe =>
    match sampleRes with
    | .error _ => (none, [.error "Error querying table"])
    | .ok sampleValues =>
      let columns := describe.foldl
        (fun acc row => mapSet acc row.column_name (summarizeColumn sampleValues row)) []
      (some { name := tableName, columns := columns }, [])

/-! The type-name families, copied from the case-label groups of
`getSimplifiedDataType` in data.ts. -/

def nominalTypes : List String :=
  ["string", "varchar", "char", "bpchar", "nvarchar", "uuid", "text", "oid"]

def quantitativeTypes : List String :=
  ["float", "float4", "float8", "double", "decimal", "numeric", "real",
   "bigint", "int128", "int16", "int2", "int32", "int4", "int64", "int8",
   "integer", "integral", "int", "int1", "uint128", "uint16", "uint32",
   "uint64", "uint8", "tinyint", "ubigint", "uhugeint", "uinteger",
   "usmallint", "utinyint", "varint", "hugeint", "long", "smallint",
   "signed", "short"]

def ordinalTypes : List String := ["boolean", "bool", "logical"]

def temporalTypes : List String :=
  ["date", "datetime", "time", "timestamp", "timestamp_ms", "timestamp_ns",
   "timestamp_s", "timestamp_us", "timestamptz", "timetz"]

def unknownGroupTypes : List String :=
  ["json", "binary", "varbinary", "bit", "bitstring", "blob", "bytea",
   "dec", "guid", "interval", "map", "row", "struct", "unknown", "list",
   "union", "enum", "null"]

/-- Membership in the closed `DataType` enumeration of data.ts (the DuckDB
type names plus the reserved "unknown" tag) — exactly the strings the
switch in `getSimplifiedDataType` handles without reaching its `default`
arm. -/
def validDataType (s : String) : Bool :=
  nominalTypes.contains s || quantitativeTypes.contains s ||
    ordinalTypes.contains s || temporalTypes.contains s ||
    unknownGroupTypes.contains s

/-- The five-way simplified classification. -/
inductive SimplifiedDataType where
  | temporal
  | quantitative
  | ordinal
  | nominal
  | unknown
  deriving DecidableEq, Repr

/-- data.ts `getSimplifiedDataType`: the switch on the detailed type tag,
rendered as the membership test for each group of fall-through case labels;
the `default` arm calls `logNever` (a warning) and returns "unknown".
Returns the classification together with the log entries the call emits. -/
def getSimplifiedDataType (dataType : String) : SimplifiedDataType × List LogEntry :=
  if nominalTypes.contains dataType then (.nominal, [])
  else if quantitativeTypes.contains dataType then (.quantitative, [])
  else if ordinalTypes.contains dataType then (.ordinal, [])
  else if temporalTypes.contains dataType then (.temporal, [])
  else if unknownGroupTypes.contains dataType then (.unknown, [])
  else (.unknown, [logNeverEntry dataType])

/-! The chart-spec builder, components.tsx. -/

/-- types.ts `ChartType`: the closed enumeration switched on by
`specChart`. -/
inductive ChartType where
  | line
  | groupedColumn
  | stackedColumn
  | hundredStackedColumn
  | bar
  deriving DecidableEq, Repr

/-- types.ts `ChartForm`. `x`/`y` are nullable column-name references. -/
structure ChartForm where
  chartType : ChartType
  x : Option String
  y : Option String
  colorBy : Option String
  deriving DecidableEq, Repr

def NULL_VALUE : String := ""

def COUNT_FIELD : String := "__count__"

def COUNT_FIELD_LABEL : String := "Count of Records"

def CHART_WIDTH : Nat := 700

def TABLE_HEIGHT : Nat := 300

/-- The y-channel of a mark: either the `count()` row-count aggregate or a
literal column reference. -/
inductive YValue where
  | countAgg
  | field (name : String)
  deriving DecidableEq, Repr

/-- The `markValues` options object passed to a mark factory. -/
structure MarkValues where
  x : String
  y : YValue
  tip : Bool
  fill : Option String
  deriving DecidableEq, Repr

/-- Which vgplot mark factory was selected. -/
inductive MarkKind where
  | rectY
  | barY
  | lineY
  deriving DecidableEq, Repr

/-- One argument passed to `plot(...)`: a baseline presentation option or a
mark bound to a source table. -/
inductive PlotDirective where
  | width (n : Nat)
  | gridX
  | gridY
  | axisY (label : String)
  | axisX
  | mark (kind : MarkKind) (src : String) (values : MarkValues)
  deriving DecidableEq, Repr

/-- A built `plot(...)` element: its directives in application order. -/
structure PlotElem where
  directives : List PlotDirective
  deriving DecidableEq, Repr

/-- The `table({from, height, width})` preview element. -/
structure TableElem where
  src : String
  height : Nat
  width : Nat
  deriving DecidableEq, Repr

/-- The renderable element `specChart` returns: either the bare table
preview (the early-return fallbacks) or `vconcat(chart, vspace(gap),
tableDisplay)` where `chart` is the mark plot when one was built. -/
inductive VElem where
  | tbl (t : TableElem)
  | vconcat (chart : Option PlotElem) (gap : Nat) (t : TableElem)
  deriving DecidableEq, Repr

/-- The `tableDisplay` preview built at the top of `specChart`. -/
def tableDisplayOf (tableName : String) : TableElem :=
  { src := tableName, height := TABLE_HEIGHT, width := CHART_WIDTH }

/-- The `defaultValues` baseline options of `specChart`: fixed width, both
grids, a y-axis whose label is the count label when the count sentinel is
selected and the literal column name otherwise, and a default x-axis. -/
def defaultValues (y : String) : List PlotDirective :=
  [.width CHART_WIDTH, .gridX, .gridY,
   .axisY (if y = COUNT_FIELD then COUNT_FIELD_LABEL else y),
   .axisX]

/-- The `markValues` object of `specChart` (before the grouped-column branch
adds its fill): x is the literal column, y is `count()` for the sentinel and
the literal column otherwise, tooltips on. -/
def markValuesOf (x y : String) : MarkValues :=
  { x := x
    y := if y = COUNT_FIELD then .countAgg else .field y
    tip := true
    fill := none }

/-- The straight-line tail of `specChart` once both columns resolved: the
classification of the x column (whose `logNever` warnings are emitted here)
followed by the switch on the chart type. -/
def specChartSwitch (chartType : ChartType) (tableName xs ys : String)
    (xCol : ColumnSummary) (tableDisplay : TableElem) : VElem × List LogEntry :=
  let dv := defaultValues ys
  let classified := getSimplifiedDataType xCol.dataType
  let xDataType := classified.1
  let mv := markValuesOf xs ys
  match chartType with
  | .groupedColumn =>
    let mv := { mv with fill := some "steelblue" }
    let markKind :=
      if xDataType = .temporal ∨ xDataType = .quantitative then
        MarkKind.rectY
      else MarkKind.barY
    (.vconcat (some ⟨dv ++ [.mark markKind tableName mv]⟩) 25 tableDisplay,
      classified.2)
  | .line =>
    (.vconcat (some ⟨dv ++ [.mark .lineY tableName mv]⟩) 25 tableDisplay,
      classified.2)
  | .stackedColumn =>
    (.vconcat none 25 tableDisplay,
      classified.2 ++ [.warn "Stacked column not implemented"])
  | .hundredStackedColumn =>
    (.vconcat none 25 tableDisplay,
      classified.2 ++ [.warn "Grouped 100% stacked column not implemented"])
  | .bar =>
    (.vconcat none 25 tableDisplay,
      classified.2 ++ [.warn "Bar not implemented"])

/-- components.tsx `specChart` (the revision taking a `TableSummary` and
falling back to the table preview).  Returns the built element together
with the log entries emitted during the call.  JavaScript falsiness of
`formValues.x`/`formValues.y` covers both `null` and the empty string. -/
def specChart (formValues : ChartForm) (tableName : String)
    (data : TableSummary) : VElem × List LogEntry :=
  let tableDisplay := tableDisplayOf tableName
  match formValues.x, formValues.y with
  | some xs, some ys =>
    if xs = "" ∨ ys = "" then (.tbl tableDisplay, [])
    else
      let xColumn := mapGet data.columns xs
      let yColumnFound : Bool :=
        if ys = COUNT_FIELD then true else (mapGet data.columns ys).isSome
      match xColumn, yColumnFound with
      | some xCol, true =>
        specChartSwitch formValues.chartType tableName xs ys xCol tableDisplay
      | _, _ => (.tbl tableDisplay, [.error "X or Y column's data is not found"])
  | _, _ => (.tbl tableDisplay, [])

/-! Helper lemmas. -/

/-- `validDataType` as membership in the five case-label groups. -/
lemma validDataType_iff (s : String) :
    validDataType s = true ↔
      (s ∈ nominalTypes ∨ s ∈ quantitativeTypes ∨ s ∈ ordinalTypes ∨
        s ∈ temporalTypes ∨ s ∈ unknownGroupTypes) := by
  unfold validDataType
  simp [List.contains, List.elem_iff, or_assoc]

/-- A recognized type name is classified without emitting any log. -/
lemma getSimplifiedDataType_logs_nil_of_valid (s : String)
    (h : validDataType s = true) : (getSimplifiedDataType s).2 = [] := by
  rw [validDataType_iff] at h
  by_cases h1 : s ∈ nominalTypes
  · simp [getSimplifiedDataType, h1]
  · by_cases h2 : s ∈ quantitativeTypes
    · simp [getSimplifiedDataType, h1, h2]
    · by_cases h3 : s ∈ ordinalTypes
      · simp [getSimplifiedDataType, h1, h2, h3]
      · by_cases h4 : s ∈ temporalTypes
        · simp [getSimplifiedDataType, h1, h2, h3, h4]
        · by_cases h5 : s ∈ unknownGroupTypes
          · simp [getSimplifiedDataType, h1, h2, h3, h4, h5]
          · tauto

/-- An unrecognized type name falls to the `default` arm: classification
"unknown" plus the `logNever` warning. -/
lemma getSimplifiedDataType_of_invalid (s : String)
    (h : validDataType s = false) :
    getSimplifiedDataType s = (.unknown, [logNeverEntry s]) := by
  have h' : ¬(s ∈ nominalTypes ∨ s ∈ quantitativeTypes ∨ s ∈ ordinalTypes ∨
      s ∈ temporalTypes ∨ s ∈ unknownGroupTypes) := by
    rw [← validDataType_iff]
    simp [h]
  push_neg at h'
  obtain ⟨h1, h2, h3, h4, h5⟩ := h'
  simp [getSimplifiedDataType, h1, h2, h3, h4, h5]

/-- Reduction of `specChart` to the chart-type switch when both selections
are set, non-empty, and resolve. -/
lemma specChart_main (form : ChartForm) (t : String) (data : TableSummary)
    (xs ys : String) (xCol : ColumnSummary)
    (hx : form.x = some xs) (hy : form.y = some ys)
    (hxe : xs ≠ "") (hye : ys ≠ "")
    (hxc : mapGet data.columns xs = some xCol)
    (hyok : ys = COUNT_FIELD ∨ (mapGet data.columns ys).isSome = true) :
    specChart form t data =
      specChartSwitch form.chartType t xs ys xCol (tableDisplayOf t) := by
  unfold specChart
  rw [hx, hy]
  simp only [hxe, hye, or_self, if_false, false_or]
  rw [hxc]
  rcases hyok with h | h
  · simp [h]
  · by_cases hc : ys = COUNT_FIELD
    · simp [hc]
    · simp [hc, h]

/-- Reduction of `specChart` to the logged fallback when a set, non-empty
selection fails to resolve. -/
lemma specChart_missing (form : ChartForm) (t : String) (data : TableSummary)
    (xs ys : String)
    (hx : form.x = some xs) (hy : form.y = some ys)
    (hxe : xs ≠ "") (hye : ys ≠ "")
    (hmiss : mapGet data.columns xs = none ∨
      (ys ≠ COUNT_FIELD ∧ mapGet data.columns ys = none)) :
    specChart form t data =
      (.tbl (tableDisplayOf t), [.error "X or Y column's data is not found"]) := by
  unfold specChart
  rw [hx, hy]
  simp only [hxe, hye, or_self, if_false, false_or]
  rcases hmiss with h | ⟨hc, h⟩
  · simp [h]
  · cases hxc : mapGet data.columns xs <;> simp [hc, h]

/-- A column summary fixture with the given data type (used to instantiate
theorems at concrete inputs). -/
def mkColumn (dt : String) : ColumnSummary :=
  { dataType := dt
    nullable := true
    sampleValues := none
    isPrimaryKey := false
    isForeignKey := false
    defaultValue := .null
    comment := none }

/-! Claim theorems. -/

/-- C1, counterexample: a DESCRIBE row whose type string is
"TOTALLY_BOGUS_TYPE" (not in the enumeration) yields a `ColumnSummary`
whose `dataType` is the lower-cased string kept verbatim, not the reserved
"unknown" tag the claim requires. -/
theorem spec_C1_counterexample :
    (((queryTable
        (.ok [{ column_name := "c", column_type := .str "TOTALLY_BOGUS_TYPE",
                nullMarker := .str "NO", key := .null, defaultVal := .null,
                extra := .null }])
        (.ok []) "t").1.bind
        (fun ts => mapGet ts.columns "c")).map ColumnSummary.dataType)
      = some "totally_bogus_type" ∧
    validDataType "totally_bogus_type" = false ∧
    "totally_bogus_type" ≠ "unknown" := by
  decide

/-- C1 (amended): `queryTable` stores the type string lower-cased and
verbatim — it performs no matching against the enumeration (the `as
DataType` annotation is a compile-time cast); the closed-enumeration
mapping is layered on top: `getSimplifiedDataType` sends every string
outside the enumeration to the "unknown" classification, never raising. -/
theorem spec_C1_dataType_verbatim :
    (∀ (sample : List (String × List JSVal)) (row : DescribeRow),
        (summarizeColumn sample row).dataType = strToLower (jsToString row.column_type)) ∧
    (∀ s : String, validDataType s = false →
        (getSimplifiedDataType s).1 = SimplifiedDataType.unknown) := by
  refine ⟨fun _ _ => rfl, fun s h => ?_⟩
  rw [getSimplifiedDataType_of_invalid s h]

/-- C1, witness: the amended theorem applied at "totally_bogus_type". -/
theorem spec_C1_witness :
    validDataType "totally_bogus_type" = false ∧
    (getSimplifiedDataType "totally_bogus_type").1 = SimplifiedDataType.unknown :=
  ⟨by decide, spec_C1_dataType_verbatim.2 "totally_bogus_type" (by decide)⟩

/-- C2, counterexample: the marker "PRIFOR" case-insensitively contains
both "pri" and "for", and the code sets both flags true — contradicting the
claim that a marker containing "pri" has `isForeignKey = false`. -/
theorem spec_C2_counterexample :
    strHas (strToLower "PRIFOR") "pri" = true ∧
    strHas (strToLower "PRIFOR") "for" = true ∧
    isPrimaryKey (.str "PRIFOR") = true ∧
    isForeignKey (.str "PRIFOR") = true ∧
    (summarizeColumn []
      { column_name := "c", column_type := .str "INTEGER",
        nullMarker := .str "NO", key := .str "PRIFOR", defaultVal := .null,
        extra := .null }).isPrimaryKey = true ∧
    (summarizeColumn []
      { column_name := "c", column_type := .str "INTEGER",
        nullMarker := .str "NO", key := .str "PRIFOR", defaultVal := .null,
        extra := .null }).isForeignKey = true := by
  decide

/-- C2 (amended): the two flags are independent case-insensitive substring
tests — `isPrimaryKey` is true iff the marker is a string containing "pri",
`isForeignKey` iff it contains "for" (so a marker containing both sets both
flags, and one containing neither sets both false); non-string markers set
both flags false. -/
theorem spec_C2_key_flags :
    (∀ s : String, isPrimaryKey (.str s) = strHas (strToLower s) "pri" ∧
        isForeignKey (.str s) = strHas (strToLower s) "for") ∧
    isPrimaryKey .null = false ∧ isForeignKey .null = false ∧
    isPrimaryKey .undefined = false ∧ isForeignKey .undefined = false ∧
    (∀ n, isPrimaryKey (.num n) = false ∧ isForeignKey (.num n) = false) ∧
    (∀ b, isPrimaryKey (.bool b) = false ∧ isForeignKey (.bool b) = false) :=
  ⟨fun _ => ⟨rfl, rfl⟩, rfl, rfl, rfl, rfl, fun _ => ⟨rfl, rfl⟩,
    fun _ => ⟨rfl, rfl⟩⟩

/-- C8: if either engine query raises, `queryTable` returns the null result
with exactly the one logged error — the exception never propagates. -/
theorem spec_C8_query_failure_null (dRes : Except String (List DescribeRow))
    (sRes : Except String (List (String × List JSVal))) (t : String)
    (h : (∃ e, dRes = .error e) ∨ (∃ e, sRes = .error e)) :
    queryTable dRes sRes t = (none, [.error "Error querying table"]) := by
  rcases h with ⟨e, he⟩ | ⟨e, he⟩
  · rw [he]
    rfl
  · subst he
    cases dRes <;> rfl

/-- C8, witness: the theorem applied to a failing DESCRIBE query. -/
theorem spec_C8_witness :
    queryTable (Except.error "engine unreachable") (.ok []) "weather"
      = (none, [.error "Error querying table"]) :=
  spec_C8_query_failure_null _ _ _ (Or.inl ⟨"engine unreachable", rfl⟩)

/-- C9: `nullable` is true exactly for a string marker whose lower-casing is
"null" or an absent (`null`/`undefined`) marker, and false for every other
string and every other modelled value; `queryTable` derives the field from
the row's nullability marker through `isNullable`. -/
theorem spec_C9_nullable :
    (∀ s : String, isNullable (.str s) = (strToLower s == "null")) ∧
    isNullable .null = true ∧
    isNullable .undefined = true ∧
    isNullable (.str "NULL") = true ∧
    isNullable (.str "NO") = false ∧
    (∀ n, isNullable (.num n) = false) ∧
    (∀ b, isNullable (.bool b) = false) ∧
    (∀ (sample : List (String × List JSVal)) (row : DescribeRow),
        (summarizeColumn sample row).nullable = isNullable row.nullMarker) :=
  ⟨fun _ => rfl, rfl, rfl, by decide, by decide, fun _ => rfl, fun _ => rfl,
    fun _ _ => rfl⟩

/-- C3: with `x` or `y` unset the builder returns the bare table-preview
element and emits no log — it builds no mark and never returns an
empty/null result. -/
theorem spec_C3_null_xy_preview (form : ChartForm) (t : String)
    (data : TableSummary) (h : form.x = none ∨ form.y = none) :
    specChart form t data = (.tbl (tableDisplayOf t), []) := by
  unfold specChart
  rcases h with h | h
  · rw [h]
  · rw [h]
    cases hx : form.x <;> rfl

/-- C3, witness: the theorem applied to a form with `x` unset. -/
theorem spec_C3_witness :
    specChart { chartType := .line, x := none, y := some "a", colorBy := none }
      "tbl" { name := "tbl", columns := [] } = (.tbl (tableDisplayOf "tbl"), []) :=
  spec_C3_null_xy_preview _ _ _ (Or.inl rfl)

/-- C4: a set, non-empty `x` (or a set, non-empty `y` other than the count
sentinel) that does not resolve in `TableSummary.columns` makes `specChart`
log the error and return the table-preview fallback — it does not raise. -/
theorem spec_C4_stale_column_fallback (form : ChartForm) (t : String)
    (data : TableSummary) (xs ys : String)
    (hx : form.x = some xs) (hy : form.y = some ys)
    (hxe : xs ≠ "") (hye : ys ≠ "")
    (hmiss : mapGet data.columns xs = none ∨
      (ys ≠ COUNT_FIELD ∧ mapGet data.columns ys = none)) :
    specChart form t data =
      (.tbl (tableDisplayOf t), [.error "X or Y column's data is not found"]) :=
  specChart_missing form t data xs ys hx hy hxe hye hmiss

/-- C4, witness: the theorem applied to a form whose `x` references a column
absent from the table. -/
theorem spec_C4_witness :
    specChart { chartType := .line, x := some "ghost", y := some "b", colorBy := none }
      "tbl" { name := "tbl", columns := [("b", mkColumn "integer")] } =
      (.tbl (tableDisplayOf "tbl"), [.error "X or Y column's data is not found"]) :=
  spec_C4_stale_column_fallback _ _ _ "ghost" "b" rfl rfl (by decide) (by decide)
    (Or.inl (by decide))

/-- C10, counterexample: a form with `x = "__count__"` but `y` unset hits
the earlier unset-check — `specChart` returns the preview without looking
`x` up and without logging any error, contrary to the claim that every such
form logs an error. -/
theorem spec_C10_counterexample :
    specChart { chartType := .line, x := some COUNT_FIELD, y := none, colorBy := none }
      "t" { name := "t", columns := [] } = (.tbl (tableDisplayOf "t"), []) := by
  rfl

/-- C10 (amended): the count sentinel is special-cased only in the y
position — when `y` is also set (and non-empty) and the table has no column
literally named "__count__", an `x` equal to the sentinel is looked up as an
ordinary column, fails to resolve, the error is logged and the
table-preview fallback returned; when `y` is unset the same fallback is
returned without a lookup or a log.  Either way the sentinel never acts as
an x-axis selection. -/
theorem spec_C10_count_not_x (form : ChartForm) (t : String)
    (data : TableSummary) (ys : String)
    (hx : form.x = some COUNT_FIELD) (hy : form.y = some ys) (hye : ys ≠ "")
    (hmiss : mapGet data.columns COUNT_FIELD = none) :
    specChart form t data =
      (.tbl (tableDisplayOf t), [.error "X or Y column's data is not found"]) :=
  specChart_missing form t data COUNT_FIELD ys hx hy (by decide) hye
    (Or.inl hmiss)

/-- C10, witness: the amended theorem applied to a form selecting the count
sentinel on x with a set y. -/
theorem spec_C10_witness :
    specChart
      { chartType := .groupedColumn, x := some COUNT_FIELD,
        y := some COUNT_FIELD, colorBy := none }
      "t10" { name := "t10", columns := [("v", mkColumn "varchar")] } =
      (.tbl (tableDisplayOf "t10"), [.error "X or Y column's data is not found"]) :=
  spec_C10_count_not_x _ _ _ COUNT_FIELD rfl rfl (by decide) (by decide)

/-- Computation of the grouped-column branch of the switch. -/
lemma specChartSwitch_grouped (t xs ys : String) (xCol : ColumnSummary)
    (td : TableElem) :
    specChartSwitch .groupedColumn t xs ys xCol td =
      (.vconcat (some ⟨defaultValues ys ++
          [.mark (if (getSimplifiedDataType xCol.dataType).1 = .temporal ∨
                (getSimplifiedDataType xCol.dataType).1 = .quantitative
              then MarkKind.rectY else MarkKind.barY)
            t { markValuesOf xs ys with fill := some "steelblue" }]⟩) 25 td,
        (getSimplifiedDataType xCol.dataType).2) := rfl

/-- Computation of the line branch of the switch. -/
lemma specChartSwitch_line (t xs ys : String) (xCol : ColumnSummary)
    (td : TableElem) :
    specChartSwitch .line t xs ys xCol td =
      (.vconcat (some ⟨defaultValues ys ++
          [.mark .lineY t (markValuesOf xs ys)]⟩) 25 td,
        (getSimplifiedDataType xCol.dataType).2) := rfl

/-- C5, counterexample: `queryTable` stores an out-of-enum type string
verbatim, and on such a table a stacked-column form with valid x and y
makes `specChart` emit two log entries — the `logNever` warning from the
x-column classification followed by the branch warning — not exactly
one. -/
theorem spec_C5_counterexample :
    (queryTable
        (.ok [{ column_name := "a", column_type := .str "TOTALLY_BOGUS_TYPE",
                nullMarker := .null, key := .null, defaultVal := .null,
                extra := .null },
              { column_name := "b", column_type := .str "VARCHAR",
                nullMarker := .null, key := .null, defaultVal := .null,
                extra := .null }])
        (.ok []) "t").1 =
      some { name := "t", columns := [("a", mkColumn "totally_bogus_type"),
        ("b", mkColumn "varchar")] } ∧
    specChart
      { chartType := .stackedColumn, x := some "a", y := some "b",
        colorBy := none }
      "t" { name := "t", columns := [("a", mkColumn "totally_bogus_type"),
        ("b", mkColumn "varchar")] } =
      (.vconcat none 25 (tableDisplayOf "t"),
        [logNeverEntry "totally_bogus_type",
         .warn "Stacked column not implemented"]) ∧
    [logNeverEntry "totally_bogus_type",
      LogEntry.warn "Stacked column not implemented"].length = 2 := by
  decide

/-- C5 (amended): for the three unimplemented chart kinds, with both
selections resolving, `specChart` always returns successfully with no mark
— only the baseline/table composition — and its log output is the
x-column classification's log entries followed by the one branch warning:
exactly one warning when the x column's type tag is in the closed
enumeration, and a preceding `logNever` warning when the tag is an
out-of-enum string (reachable, since `queryTable` stores unrecognized
strings verbatim). -/
theorem spec_C5_unimplemented_nonfatal (form : ChartForm) (t : String)
    (data : TableSummary) (xs ys : String) (xCol : ColumnSummary)
    (hx : form.x = some xs) (hy : form.y = some ys)
    (hxe : xs ≠ "") (hye : ys ≠ "")
    (hxc : mapGet data.columns xs = some xCol)
    (hyok : ys = COUNT_FIELD ∨ (mapGet data.columns ys).isSome = true)
    (hct : form.chartType = .stackedColumn ∨
      form.chartType = .hundredStackedColumn ∨ form.chartType = .bar) :
    (∃ m, specChart form t data =
      (.vconcat none 25 (tableDisplayOf t),
        (getSimplifiedDataType xCol.dataType).2 ++ [.warn m])) ∧
    (validDataType xCol.dataType = true →
      (getSimplifiedDataType xCol.dataType).2 = []) ∧
    (validDataType xCol.dataType = false →
      (getSimplifiedDataType xCol.dataType).2 = [logNeverEntry xCol.dataType]) := by
  refine ⟨?_, fun hv => getSimplifiedDataType_logs_nil_of_valid _ hv,
    fun hv => by rw [getSimplifiedDataType_of_invalid _ hv]⟩
  rw [specChart_main form t data xs ys xCol hx hy hxe hye hxc hyok]
  rcases hct with h | h | h <;> rw [h]
  · exact ⟨"Stacked column not implemented", rfl⟩
  · exact ⟨"Grouped 100% stacked column not implemented", rfl⟩
  · exact ⟨"Bar not implemented", rfl⟩

/-- C5, witness: the amended theorem applied twice over a stacked-column
form — an in-enum integer x column yields exactly the one branch warning,
and the out-of-enum x column of the counterexample's table yields the
`logNever` warning followed by the branch warning. -/
theorem spec_C5_witness :
    specChart
      { chartType := .stackedColumn, x := some "a", y := some "b",
        colorBy := none }
      "t5" { name := "t5", columns := [("a", mkColumn "integer"),
        ("b", mkColumn "varchar")] } =
      (.vconcat none 25 (tableDisplayOf "t5"),
        [.warn "Stacked column not implemented"]) ∧
    specChart
      { chartType := .stackedColumn, x := some "a", y := some "b",
        colorBy := none }
      "t5" { name := "t5", columns := [("a", mkColumn "totally_bogus_type"),
        ("b", mkColumn "varchar")] } =
      (.vconcat none 25 (tableDisplayOf "t5"),
        [logNeverEntry "totally_bogus_type",
         .warn "Stacked column not implemented"]) := by
  obtain ⟨⟨m1, hm1⟩, hv1, hi1⟩ := spec_C5_unimplemented_nonfatal
    { chartType := .stackedColumn, x := some "a", y := some "b",
      colorBy := none }
    "t5"
    { name := "t5", columns := [("a", mkColumn "integer"),
        ("b", mkColumn "varchar")] }
    "a" "b" (mkColumn "integer") rfl rfl (by decide) (by decide) (by decide)
    (Or.inr (by decide)) (Or.inl rfl)
  obtain ⟨⟨m2, hm2⟩, hv2, hi2⟩ := spec_C5_unimplemented_nonfatal
    { chartType := .stackedColumn, x := some "a", y := some "b",
      colorBy := none }
    "t5"
    { name := "t5", columns := [("a", mkColumn "totally_bogus_type"),
        ("b", mkColumn "varchar")] }
    "a" "b" (mkColumn "totally_bogus_type") rfl rfl (by decide) (by decide)
    (by decide) (Or.inr (by decide)) (Or.inl rfl)
  constructor <;> decide

/-- C6: whenever a mark is built (grouped-column or line), selecting the
reserved count field for `y` makes the baseline y-axis label the fixed
"Count of Records" string and the mark's y-value the `count()` row-count
aggregate, while any other resolved `y` yields the literal column name as
label and the column reference as y-value. -/
theorem spec_C6_count_sentinel (form : ChartForm) (t : String)
    (data : TableSummary) (xs ys : String) (xCol : ColumnSummary)
    (hx : form.x = some xs) (hy : form.y = some ys)
    (hxe : xs ≠ "") (hye : ys ≠ "")
    (hxc : mapGet data.columns xs = some xCol)
    (hyok : ys = COUNT_FIELD ∨ (mapGet data.columns ys).isSome = true)
    (hct : form.chartType = .groupedColumn ∨ form.chartType = .line) :
    ∃ p : PlotElem,
      (specChart form t data).1 = .vconcat (some p) 25 (tableDisplayOf t) ∧
      PlotDirective.axisY (if ys = COUNT_FIELD then COUNT_FIELD_LABEL else ys)
        ∈ p.directives ∧
      ∃ k mv, PlotDirective.mark k t mv ∈ p.directives ∧
        mv.y = (if ys = COUNT_FIELD then YValue.countAgg else .field ys) := by
  rw [specChart_main form t data xs ys xCol hx hy hxe hye hxc hyok]
  rcases hct with h | h <;> rw [h]
  · rw [specChartSwitch_grouped]
    refine ⟨_, rfl, ?_, ?_⟩
    · simp [defaultValues]
    · exact ⟨(if (getSimplifiedDataType xCol.dataType).1 = .temporal ∨
            (getSimplifiedDataType xCol.dataType).1 = .quantitative
          then MarkKind.rectY else MarkKind.barY),
        { markValuesOf xs ys with fill := some "steelblue" },
        by simp, by simp [markValuesOf]⟩
  · rw [specChartSwitch_line]
    refine ⟨_, rfl, ?_, ?_⟩
    · simp [defaultValues]
    · exact ⟨.lineY, markValuesOf xs ys, by simp, by simp [markValuesOf]⟩

/-- C6, witness: the theorem applied to a line chart over a date x column
with the count sentinel selected for y. -/
theorem spec_C6_witness :
    (specChart
      { chartType := .line, x := some "d", y := some COUNT_FIELD,
        colorBy := none }
      "t6" { name := "t6", columns := [("d", mkColumn "date")] }).1 =
      .vconcat (some ⟨[.width 700, .gridX, .gridY,
        .axisY COUNT_FIELD_LABEL, .axisX,
        .mark .lineY "t6"
          { x := "d", y := .countAgg, tip := true, fill := none }]⟩)
        25 (tableDisplayOf "t6") := by
  obtain ⟨p, h1, h2, h3⟩ := spec_C6_count_sentinel
    { chartType := .line, x := some "d", y := some COUNT_FIELD,
      colorBy := none }
    "t6" { name := "t6", columns := [("d", mkColumn "date")] }
    "d" COUNT_FIELD (mkColumn "date") rfl rfl (by decide) (by decide)
    (by decide) (Or.inl rfl) (Or.inr rfl)
  decide

/-- C7: for a grouped-column form with both selections resolving, the mark
is `rectY` exactly when the simplified classification of the x column's
type tag is temporal or quantitative and `barY` otherwise (nominal,
ordinal or unknown), with fill fixed to the constant "steelblue" accent. -/
theorem spec_C7_grouped_mark (form : ChartForm) (t : String)
    (data : TableSummary) (xs ys : String) (xCol : ColumnSummary)
    (hx : form.x = some xs) (hy : form.y = some ys)
    (hxe : xs ≠ "") (hye : ys ≠ "")
    (hxc : mapGet data.columns xs = some xCol)
    (hyok : ys = COUNT_FIELD ∨ (mapGet data.columns ys).isSome = true)
    (hct : form.chartType = .groupedColumn) :
    specChart form t data =
      (.vconcat (some ⟨defaultValues ys ++
          [.mark (if (getSimplifiedDataType xCol.dataType).1 = .temporal ∨
                (getSimplifiedDataType xCol.dataType).1 = .quantitative
              then MarkKind.rectY else MarkKind.barY)
            t { markValuesOf xs ys with fill := some "steelblue" }]⟩)
        25 (tableDisplayOf t),
        (getSimplifiedDataType xCol.dataType).2) := by
  rw [specChart_main form t data xs ys xCol hx hy hxe hye hxc hyok, hct,
    specChartSwitch_grouped]

/-- C7, witness: the theorem applied twice — a quantitative x column
selects the rect mark, a nominal x column the categorical bar mark. -/
theorem spec_C7_witness :
    (specChart
      { chartType := .groupedColumn, x := some "q", y := some COUNT_FIELD,
        colorBy := none }
      "t7" { name := "t7", columns := [("q", mkColumn "integer")] }).1 =
      .vconcat (some ⟨[.width 700, .gridX, .gridY,
        .axisY COUNT_FIELD_LABEL, .axisX,
        .mark .rectY "t7"
          { x := "q", y := .countAgg, tip := true, fill := some "steelblue" }]⟩)
        25 (tableDisplayOf "t7") ∧
    (specChart
      { chartType := .groupedColumn, x := some "n", y := some COUNT_FIELD,
        colorBy := none }
      "t7" { name := "t7", columns := [("n", mkColumn "varchar")] }).1 =
      .vconcat (some ⟨[.width 700, .gridX, .gridY,
        .axisY COUNT_FIELD_LABEL, .axisX,
        .mark .barY "t7"
          { x := "n", y := .countAgg, tip := true, fill := some "steelblue" }]⟩)
        25 (tableDisplayOf "t7") := by
  have h1 := spec_C7_grouped_mark
    { chartType := .groupedColumn, x := some "q", y := some COUNT_FIELD,
      colorBy := none }
    "t7" { name := "t7", columns := [("q", mkColumn "integer")] }
    "q" COUNT_FIELD (mkColumn "integer") rfl rfl (by decide) (by decide)
    (by decide) (Or.inl rfl) rfl
  have h2 := spec_C7_grouped_mark
    { chartType := .groupedColumn, x := some "n", y := some COUNT_FIELD,
      colorBy := none }
    "t7" { name := "t7", columns := [("n", mkColumn "varchar")] }
    "n" COUNT_FIELD (mkColumn "varchar") rfl rfl (by decide) (by decide)
    (by decide) (Or.inl rfl) rfl
  constructor <;> decide

end ChartBuilder
